import Mathlib

/-!
Verification development for a pair of ORM tutorial scripts
(quick_start.py and tutorial.py).  The scripts declare two mapped
classes (User, Address), run a fixed sequence of session operations
against an in-memory SQLite database, and exercise SQL expression
compilation.  Below, the declarative models, the statement sequences,
the session lifecycle traces and the database states they produce are
embedded as concrete Lean data, and the claims about them are proved
or refuted.
-/

/-- Column type as written in the mapped class declarations:
Integer, String, or String with a length bound (String(30)). -/
inductive ColType
  | integer
  | string
  | stringN (n : Nat)
deriving DecidableEq, Repr

/-- One Column(...) declaration of a mapped class: its attribute name,
type, whether primary_key=True was written, whether nullable=False was
written, and the ForeignKey target when one was written. -/
structure ColumnDef where
  name : String
  ty : ColType
  primaryKey : Bool := false
  notNull : Bool := false
  foreignKey : Option String := none
deriving DecidableEq, Repr

/-- One relationship(...) declaration of a mapped class: the attribute
it is bound to, the target class name, the back_populates argument, and
the cascade argument when one was written. -/
structure RelationshipDef where
  attr : String
  target : String
  backPopulates : String
  cascade : Option String := none
deriving DecidableEq, Repr

/-- One declarative mapped class: class name, __tablename__, the Column
declarations in source order, and the relationship declarations. -/
structure MappedClass where
  className : String
  tablename : String
  columns : List ColumnDef
  relationships : List RelationshipDef
deriving DecidableEq, Repr

/-- The User mapped class of quick_start.py (lines 12-24): table
user_account with id (Integer, primary key), name (String(30)),
fullname (String), and relationship addresses to Address with
back_populates user and cascade all, delete-orphan. -/
def quickStartUser : MappedClass :=
  { className := "User"
    tablename := "user_account"
    columns :=
      [ { name := "id", ty := .integer, primaryKey := true }
      , { name := "name", ty := .stringN 30 }
      , { name := "fullname", ty := .string } ]
    relationships :=
      [ { attr := "addresses", target := "Address", backPopulates := "user"
        , cascade := some "all, delete-orphan" } ] }

/-- The Address mapped class of quick_start.py (lines 26-36): table
address with id (Integer, primary key), email_address (String,
nullable=False), user_id (Integer, ForeignKey user_account.id,
nullable=False), and relationship user to User with back_populates
addresses. -/
def quickStartAddress : MappedClass :=
  { className := "Address"
    tablename := "address"
    columns :=
      [ { name := "id", ty := .integer, primaryKey := true }
      , { name := "email_address", ty := .string, notNull := true }
      , { name := "user_id", ty := .integer, notNull := true
        , foreignKey := some "user_account.id" } ]
    relationships :=
      [ { attr := "user", target := "User", backPopulates := "addresses" } ] }

/-- The User mapped class of tutorial.py (lines 142-152): same columns
as in quick_start.py, relationship addresses without a cascade
argument. -/
def tutorialUser : MappedClass :=
  { className := "User"
    tablename := "user_account"
    columns :=
      [ { name := "id", ty := .integer, primaryKey := true }
      , { name := "name", ty := .stringN 30 }
      , { name := "fullname", ty := .string } ]
    relationships :=
      [ { attr := "addresses", target := "Address", backPopulates := "user" } ] }

/-- The Address mapped class of tutorial.py (lines 154-164): table
address with id (Integer, primary key), email_address (String,
nullable=False), user_id (Integer, ForeignKey user_account.id, without
nullable=False), and relationship user to User with back_populates
addresses. -/
def tutorialAddress : MappedClass :=
  { className := "Address"
    tablename := "address"
    columns :=
      [ { name := "id", ty := .integer, primaryKey := true }
      , { name := "email_address", ty := .string, notNull := true }
      , { name := "user_id", ty := .integer
        , foreignKey := some "user_account.id" } ]
    relationships :=
      [ { attr := "user", target := "User", backPopulates := "addresses" } ] }

/-- All mapped classes declared in quick_start.py, in source order. -/
def quickStartModel : List MappedClass := [quickStartUser, quickStartAddress]

/-- All mapped classes declared in tutorial.py, in source order. -/
def tutorialModel : List MappedClass := [tutorialUser, tutorialAddress]

/-- A column carries a declared constraint beyond a primary key and a
foreign key exactly when nullable=False was written on it or its type
carries a length bound. -/
def columnExtraConstraint (c : ColumnDef) : Bool :=
  c.notNull ||
    (match c.ty with
     | .stringN _ => true
     | _ => false)

/-- A mapped class declares nothing beyond primary keys and foreign
keys when no column has an extra constraint and no relationship has a
cascade argument. -/
def onlyPkFkConstraints (m : MappedClass) : Bool :=
  m.columns.all (fun c => !columnExtraConstraint c) &&
    m.relationships.all (fun r => r.cascade.isNone)

/-- The parent-child pair forms a one-to-many shape: the child has a
user_id column with a foreign key to the id column of the parent
table, the parent has a primary key id column, and the two classes
carry a mutual relationship pair linked by back_populates. -/
def oneToMany (parent child : MappedClass) : Bool :=
  child.columns.any
      (fun c => c.name == "user_id" &&
        c.foreignKey == some (parent.tablename ++ ".id")) &&
    parent.columns.any (fun c => c.name == "id" && c.primaryKey) &&
    (match parent.relationships, child.relationships with
     | [pr], [cr] =>
         pr.target == child.className && cr.target == parent.className &&
           pr.backPopulates == cr.attr && cr.backPopulates == pr.attr
     | _, _ => false)

/-- A Core Table object of tutorial.py, identified by its table name. -/
structure CoreTable where
  name : String
deriving DecidableEq, Repr

/-- The user_account Core table of tutorial.py (lines 108-114). -/
def user_table : CoreTable := { name := "user_account" }

/-- The address Core table of tutorial.py (lines 118-124). -/
def address_table : CoreTable := { name := "address" }

/-- Correlation option of a scalar subquery: automatic correlation, or
an explicit correlate(...) list of tables. -/
inductive CorrelateOpt
  | auto
  | explicitTables (ts : List CoreTable)
deriving DecidableEq, Repr

/-- A scalar subquery: the tables its inner SELECT references, and its
correlation option. -/
structure ScalarSubquery where
  refs : List CoreTable
  correlateOpt : CorrelateOpt
deriving DecidableEq, Repr

/-- An enclosing SELECT statement: its FROM tables (after joins) and
the scalar subquery among its selected columns, when there is one. -/
structure SelectStmt where
  froms : List CoreTable
  subq : Option ScalarSubquery
deriving DecidableEq, Repr

/-- Model of the correlation rule of the external SQL library that the
scripts call: under automatic correlation, every table of the subquery
that also appears in the enclosing FROM is correlated out; under an
explicit correlate(...) list, only the listed tables are correlated
out. -/
def correlatedFroms (s : ScalarSubquery) (enclosing : List CoreTable) :
    List CoreTable :=
  match s.correlateOpt with
  | .auto => s.refs.filter (fun t => enclosing.contains t)
  | .explicitTables ts => s.refs.filter (fun t => ts.contains t)

/-- The FROM tables left to the subquery after correlation removes the
correlated ones. -/
def subqueryFroms (s : ScalarSubquery) (enclosing : List CoreTable) :
    List CoreTable :=
  s.refs.filter (fun t => !((correlatedFroms s enclosing).contains t))

/-- Model of statement compilation in the external SQL library: a
statement whose scalar subquery is left with no FROM clause after
correlation fails to compile; every other statement compiles. -/
def compileStmt (st : SelectStmt) : Except String Unit :=
  match st.subq with
  | none => .ok ()
  | some s =>
      if (subqueryFroms s st.froms).isEmpty then
        .error "scalar subquery returned no FROM clauses due to correlation"
      else
        .ok ()

/-- Whether compiling the statement raises an error. -/
def compileFails (st : SelectStmt) : Bool :=
  match compileStmt st with
  | .error _ => true
  | .ok _ => false

/-- Model of the bare try/except around the failing print in
tutorial.py (lines 509-512): whatever compilation returns, the except
clause passes and the script continues. -/
def bareExceptContinues (r : Except String Unit) : Bool :=
  match r with
  | .ok _ => true
  | .error _ => true

/-- The scalar subquery counting addresses per user (tutorial.py lines
492-496 and 515-520): its inner SELECT references address_table (in
the count) and user_table (in the WHERE clause). -/
def countAddressesSubquery (opt : CorrelateOpt) : ScalarSubquery :=
  { refs := [address_table, user_table], correlateOpt := opt }

/-- The enclosing SELECT of tutorial.py lines 502-508 and 524-533:
FROM user_account joined to address, with the address-count scalar
subquery among the selected columns. -/
def addressCountStmt (opt : CorrelateOpt) : SelectStmt :=
  { froms := [user_table, address_table]
    subq := some (countAddressesSubquery opt) }

/-- The statement of tutorial.py line 499: FROM user_account only,
with the automatically correlated subquery as a selected column. -/
def stmtLine499 : SelectStmt :=
  { froms := [user_table], subq := some (countAddressesSubquery .auto) }

/-- The ambiguous statement of tutorial.py lines 502-508. -/
def ambiguousStmt : SelectStmt := addressCountStmt .auto

/-- The rebuilt statement of tutorial.py lines 524-533, after
correlate(user_table). -/
def correlatedStmt : SelectStmt :=
  addressCountStmt (.explicitTables [user_table])

/-- The in-memory objects that the two scripts construct, load or
persist through a session.  Objects loaded by the second session of
quick_start.py are distinct in-memory objects from those of the first
session and carry their own names here. -/
inductive Entity
  | spongebob | sandy | patrick
  | spongebobAddr | sandyAddr1 | sandyAddr2
  | spongebob2 | sandy2 | patrick2
  | sandyAddrLoaded | sandyAddr3Loaded | patrickNewAddr
  | tutSandy | squidward | krabs | someSquidward
deriving DecidableEq, Repr

/-- One session-level event of a script run: plain construction in
memory, staging into the session (session.add, add_all, or the
save-update cascade from an already staged parent), loading from the
database by a session query (which constructs the object and makes it
persistent in one step), attribute mutation, marking for deletion
(session.delete or orphan removal), and flush or commit with the list
of objects whose rows they write. -/
inductive SessionEvent
  | construct (e : Entity)
  | stage (e : Entity)
  | load (e : Entity)
  | mutate (e : Entity)
  | markDeleted (e : Entity)
  | flush (es : List Entity)
  | commit (es : List Entity)
deriving DecidableEq, Repr

/-- The entities an event touches. -/
def eventEntities : SessionEvent → List Entity
  | .construct e => [e]
  | .stage e => [e]
  | .load e => [e]
  | .mutate e => [e]
  | .markDeleted e => [e]
  | .flush es => es
  | .commit es => es

/-- All entities touched anywhere in a trace. -/
def entitiesOf (tr : List SessionEvent) : List Entity :=
  tr.foldr (fun ev acc => eventEntities ev ++ acc) []

/-- Whether the event brings the entity into memory (construction, or
a load from the database). -/
def constructsHere (e : Entity) : SessionEvent → Bool
  | .construct a => a == e
  | .load a => a == e
  | _ => false

/-- Whether the event stages the entity in the session (an explicit
add, a cascade stage, or a load, which makes the object persistent
immediately). -/
def stagesHere (e : Entity) : SessionEvent → Bool
  | .stage a => a == e
  | .load a => a == e
  | _ => false

/-- Whether the event writes a row for the entity (a flush, or the
flush inside a commit). -/
def persistsHere (e : Entity) : SessionEvent → Bool
  | .flush es => es.contains e
  | .commit es => es.contains e
  | _ => false

/-- Lifecycle discipline for one entity in a trace: if the entity is
ever flushed or committed, then it was constructed at some earlier
index and staged at an index between construction (inclusive) and its
first flush or commit. -/
def entityLifecycleOk (tr : List SessionEvent) (e : Entity) : Bool :=
  match tr.findIdx? (persistsHere e), tr.findIdx? (constructsHere e),
      tr.findIdx? (stagesHere e) with
  | none, _, _ => true
  | some f, some c, some s => decide (c ≤ s) && decide (s < f)
  | some _, _, _ => false

/-- Lifecycle discipline of a whole trace. -/
def lifecycleOk (tr : List SessionEvent) : Bool :=
  (entitiesOf tr).all (entityLifecycleOk tr)

/-- The session trace of quick_start.py, lines 48-100, in source
order.  First session (lines 48-66): three User objects and their
Address objects are constructed, add_all stages the users and the
save-update cascade stages their addresses, and commit flushes and
commits all six.  Second session (lines 70-100): spongebob and sandy
rows are loaded by iteration, the sandy bikinibottom address by a
joined query, patrick by a query; a new Address is constructed and
cascade-staged by the append on line 89; the sandy address is mutated
on line 91; commit on line 92 flushes the pending insert and update;
removing the address from the collection on line 97 lazy-loads the
remaining sandy address and mutates the collection; flush on line 98
deletes the orphaned address; session.delete on line 99 marks patrick;
commit on line 100 deletes patrick and, by cascade, his address. -/
def quickStartTrace : List SessionEvent :=
  [ .construct .spongebobAddr
  , .construct .spongebob
  , .construct .sandyAddr1
  , .construct .sandyAddr2
  , .construct .sandy
  , .construct .patrick
  , .stage .spongebob
  , .stage .spongebobAddr
  , .stage .sandy
  , .stage .sandyAddr1
  , .stage .sandyAddr2
  , .stage .patrick
  , .flush [.spongebob, .sandy, .patrick, .spongebobAddr, .sandyAddr1, .sandyAddr2]
  , .commit [.spongebob, .sandy, .patrick, .spongebobAddr, .sandyAddr1, .sandyAddr2]
  , .load .spongebob2
  , .load .sandy2
  , .load .sandyAddrLoaded
  , .load .patrick2
  , .construct .patrickNewAddr
  , .stage .patrickNewAddr
  , .mutate .sandyAddrLoaded
  , .flush [.patrickNewAddr, .sandyAddrLoaded]
  , .commit [.patrickNewAddr, .sandyAddrLoaded]
  , .load .sandyAddr3Loaded
  , .mutate .sandy2
  , .markDeleted .sandyAddrLoaded
  , .flush [.sandyAddrLoaded]
  , .markDeleted .patrick2
  , .flush [.patrick2, .patrickNewAddr]
  , .commit [.patrick2, .patrickNewAddr] ]

/-- The ORM session trace of tutorial.py: sandy is constructed on line
167 and never staged; squidward and krabs are constructed on lines
870-871, added on lines 875-876, flushed on line 883; line 898 loads
the user_account row with primary key 4 as a fresh object; line 905
commits. -/
def tutorialOrmTrace : List SessionEvent :=
  [ .construct .tutSandy
  , .construct .squidward
  , .construct .krabs
  , .stage .squidward
  , .stage .krabs
  , .flush [.squidward, .krabs]
  , .load .someSquidward
  , .commit [.squidward, .krabs] ]

/-- A row of the user_account table. -/
structure UserRow where
  id : Nat
  name : String
  fullname : String
deriving DecidableEq, Repr

/-- A row of the address table. -/
structure AddressRow where
  id : Nat
  email_address : String
  user_id : Nat
deriving DecidableEq, Repr

/-- The two-table database the scripts write. -/
structure DB where
  users : List UserRow
  addresses : List AddressRow
deriving DecidableEq, Repr

/-- Referential integrity of the address.user_id foreign key: every
address row references the id of some existing user row. -/
def fkInvariant (db : DB) : Bool :=
  db.addresses.all (fun a => db.users.any (fun u => u.id == a.user_id))

/-- Model of the flush that follows removing an address from the
addresses collection of its user under cascade all, delete-orphan
(quick_start.py lines 19-21 and 97-98): the orphaned address row is
deleted. -/
def removeOrphanFlush (db : DB) (aid : Nat) : DB :=
  { db with addresses := db.addresses.filter (fun a => a.id != aid) }

/-- Model of the flush that follows session.delete on a user under
cascade all, delete-orphan (quick_start.py lines 99-100): the user row
and all of its address rows are deleted. -/
def deleteUserFlush (db : DB) (uid : Nat) : DB :=
  { users := db.users.filter (fun u => u.id != uid)
    addresses := db.addresses.filter (fun a => a.user_id != uid) }

/-- Model of an INSERT flushed for a newly staged address. -/
def insertAddressFlush (db : DB) (a : AddressRow) : DB :=
  { db with addresses := db.addresses ++ [a] }

/-- Model of an UPDATE flushed for a mutated email_address. -/
def updateEmailFlush (db : DB) (aid : Nat) (e : String) : DB :=
  { db with
    addresses := db.addresses.map
      (fun a => if a.id == aid then { a with email_address := e } else a) }

/-- The database after the first commit of quick_start.py (line 66):
three user rows and three address rows, ids assigned by SQLite in
insertion order. -/
def dbAfterFirstCommit : DB :=
  { users :=
      [ { id := 1, name := "spongebob", fullname := "Spongebob Squarepants" }
      , { id := 2, name := "sandy", fullname := "Sandy Cheeks" }
      , { id := 3, name := "patrick", fullname := "Patrick Star" } ]
    addresses :=
      [ { id := 1, email_address := "spongebob@bikinibottom.net", user_id := 1 }
      , { id := 2, email_address := "sandy@bikinibottom.net", user_id := 2 }
      , { id := 3, email_address := "sandy@squirrelpower.org", user_id := 2 } ] }

/-- The database after the commit on line 92 of quick_start.py: the
address appended to patrick is inserted with the next id, and the
mutated sandy address is updated. -/
def dbAfterSecondCommit : DB :=
  updateEmailFlush
    (insertAddressFlush dbAfterFirstCommit
      { id := 4, email_address := "patrickstar@bikinibottom.net", user_id := 3 })
    2 "sandy_cheeks@bikinibottom.net"

/-- The database after the flush on line 98 of quick_start.py: the
address removed from the sandy collection is deleted as an orphan. -/
def dbAfterOrphanFlush : DB := removeOrphanFlush dbAfterSecondCommit 2

/-- The database after the final commit of quick_start.py (line 100):
patrick and his remaining address are deleted. -/
def dbAfterFinalCommit : DB := deleteUserFlush dbAfterOrphanFlush 3

/-- The database states observed after each flush or commit of
quick_start.py. -/
def quickStartDbStates : List DB :=
  [dbAfterFirstCommit, dbAfterSecondCommit, dbAfterOrphanFlush, dbAfterFinalCommit]

/-- An ORM User object in memory: its in-memory identity (token), its
primary key attribute (None until the database assigns one), and its
column attributes. -/
structure OrmUser where
  token : Nat
  id : Option Nat
  name : String
  fullname : String
deriving DecidableEq, Repr

/-- The user_account rows present before line 870 of tutorial.py, from
the core inserts that the script executes: line 186-192 inserts
spongebob, lines 195-204 insert sandy, patrick and squidward, and
SQLite assigns ids 1 to 4 in insertion order.  The update statements
executed later match no row (lines 767-775) or change only fullname of
patrick (lines 835-841, overwritten value not read afterwards by the
ORM section on id grounds), and no executed statement deletes a user
row. -/
def coreUserRows : List UserRow :=
  [ { id := 1, name := "spongebob", fullname := "Spongebob Squarepants" }
  , { id := 2, name := "sandy", fullname := "Sandy Cheeks" }
  , { id := 3, name := "patrick", fullname := "Patrick McStar" }
  , { id := 4, name := "squidward", fullname := "Squidward T" } ]

/-- The squidward object constructed on line 870 of tutorial.py. -/
def squidwardNew : OrmUser :=
  { token := 0, id := none, name := "squidward", fullname := "Squidward Tentacles" }

/-- The krabs object constructed on line 871 of tutorial.py. -/
def krabsNew : OrmUser :=
  { token := 1, id := none, name := "ehkrabs", fullname := "Eugene H. Krabs" }

/-- The pending objects of the session after session.add on lines
875-876: add stages the objects without touching their attributes. -/
def sessionNewObjects : List OrmUser := [squidwardNew, krabsNew]

/-- Model of SQLite autoincrement id assignment: one more than the
largest existing id. -/
def sqliteNextId (rows : List UserRow) : Nat :=
  (rows.foldl (fun m r => max m r.id) 0) + 1

/-- Model of flushing one pending object: the database gains a row
with the next autogenerated id, and the object receives that id in its
primary key attribute. -/
def flushStep (st : List UserRow × List OrmUser) (obj : OrmUser) :
    List UserRow × List OrmUser :=
  let nid := sqliteNextId st.1
  (st.1 ++ [{ id := nid, name := obj.name, fullname := obj.fullname }],
    st.2 ++ [{ obj with id := some nid }])

/-- The session.flush of tutorial.py line 883: the two pending objects
are inserted in staging order. -/
def tutorialFlush : List UserRow × List OrmUser :=
  sessionNewObjects.foldl flushStep (coreUserRows, [])

/-- The user_account rows after the flush on line 883. -/
def usersAfterTutorialFlush : List UserRow := tutorialFlush.1

/-- The squidward and krabs objects after the flush on line 883, with
their autogenerated primary keys filled in. -/
def flushedObjects : List OrmUser := tutorialFlush.2

/-- The commit on line 905: it flushes the (empty) set of still
pending objects and ends the transaction, leaving every assigned
primary key unchanged. -/
def tutorialCommitState : List UserRow × List OrmUser :=
  ([] : List OrmUser).foldl flushStep tutorialFlush

/-- The identity map of the session after the flush: assigned primary
key to in-memory token. -/
def identityMapAfterFlush : List (Nat × Nat) :=
  flushedObjects.filterMap (fun o => o.id.map (fun i => (i, o.token)))

/-- What session.get returns: an identity-map hit handing back the
already present in-memory object, a fresh object newly loaded from a
database row, or nothing. -/
inductive GetResult
  | identityHit (token : Nat)
  | loadedFresh (row : UserRow) (newToken : Nat)
  | notFound
deriving DecidableEq, Repr

/-- Model of session.get of the external ORM library: the identity map
is consulted first and a hit returns the identical in-memory object;
otherwise the row is loaded from the database as a fresh object with a
new token. -/
def sessionGet (idMap : List (Nat × Nat)) (db : List UserRow)
    (freshToken pk : Nat) : GetResult :=
  match idMap.lookup pk with
  | some t => .identityHit t
  | none =>
      match db.find? (fun r => r.id == pk) with
      | some r => .loadedFresh r freshToken
      | none => .notFound

/-- Whether the object a get returned is the identical in-memory
object with the given token (the Python is operator). -/
def sameObject (g : GetResult) (tok : Nat) : Bool :=
  match g with
  | .identityHit t => t == tok
  | .loadedFresh _ t => t == tok
  | .notFound => false

/-- The some_squidward object of tutorial.py line 898:
session.get(User, 4) against the post-flush session state, with 2 as
the next unused in-memory token. -/
def someSquidwardGet : GetResult :=
  sessionGet identityMapAfterFlush usersAfterTutorialFlush 2 4

/-- Kind of one Python statement, at statement granularity: module
imports, assignments (including attribute targets), bare expression
statements, print calls, pass, the headers of with, for, try and
except blocks, class definition headers, function definitions, return
statements, and the two kinds of concurrency construct (thread or task
creation, and async constructs), which the scripts could have used but
do not. -/
inductive PyStmtKind
  | importStmt (names : String)
  | assign (target : String)
  | exprStmt
  | printStmt
  | passStmt
  | withHeader
  | forHeader
  | tryHeader
  | exceptHeader
  | classHeader (name : String)
  | funcDef (name : String)
  | returnStmt
  | threadSpawn
  | asyncConstruct
deriving DecidableEq, Repr

/-- A script is its statements in file order, each with its
indentation depth (0 = top level) and kind. -/
abbrev PyScript : Type := List (Nat × PyStmtKind)

/-- The statements of quick_start.py in file order. -/
def quickStartStmts : PyScript :=
  [ (0, .importStmt "Column")
  , (0, .importStmt "ForeignKey")
  , (0, .importStmt "Integer")
  , (0, .importStmt "String")
  , (0, .importStmt "declarative_base")
  , (0, .importStmt "relationship")
  , (0, .assign "Base")
  , (0, .classHeader "User")
  , (1, .assign "__tablename__")
  , (1, .assign "id")
  , (1, .assign "name")
  , (1, .assign "fullname")
  , (1, .assign "addresses")
  , (1, .funcDef "__repr__")
  , (2, .returnStmt)
  , (0, .classHeader "Address")
  , (1, .assign "__tablename__")
  , (1, .assign "id")
  , (1, .assign "email_address")
  , (1, .assign "user_id")
  , (1, .assign "user")
  , (1, .funcDef "__repr__")
  , (2, .returnStmt)
  , (0, .importStmt "create_engine")
  , (0, .assign "engine")
  , (0, .exprStmt)
  , (0, .importStmt "Session")
  , (0, .withHeader)
  , (1, .assign "spongebob")
  , (1, .assign "sandy")
  , (1, .assign "patrick")
  , (1, .exprStmt)
  , (1, .exprStmt)
  , (0, .importStmt "select")
  , (0, .assign "session")
  , (0, .assign "stmt")
  , (0, .forHeader)
  , (1, .printStmt)
  , (0, .assign "stmt")
  , (0, .assign "sandy_address")
  , (0, .exprStmt)
  , (0, .assign "stmt")
  , (0, .assign "patrick")
  , (0, .exprStmt)
  , (0, .assign "sandy_address.email_address")
  , (0, .exprStmt)
  , (0, .assign "sandy")
  , (0, .exprStmt)
  , (0, .exprStmt)
  , (0, .exprStmt)
  , (0, .exprStmt) ]

/-- Statements of tutorial.py, part 1 (see tutorialStmts). -/
def tutorialStmts1 : PyScript :=
  [ (0, .importStmt "create_engine")
  , (0, .assign "engine")
  , (0, .importStmt "text")
  , (0, .withHeader)
  , (1, .assign "result")
  , (1, .printStmt)
  , (0, .withHeader)
  , (1, .exprStmt)
  , (1, .exprStmt)
  , (1, .exprStmt)
  , (0, .withHeader)
  , (1, .exprStmt)
  , (0, .withHeader)
  , (1, .assign "result")
  , (1, .forHeader)
  , (2, .printStmt)
  , (0, .withHeader)
  , (1, .assign "result")
  , (1, .forHeader)
  , (2, .passStmt)
  , (0, .withHeader)
  , (1, .assign "result")
  , (1, .forHeader)
  , (2, .assign "x")
  , (0, .withHeader)
  , (1, .assign "result")
  , (1, .forHeader)
  , (2, .assign "y")
  , (2, .printStmt)
  , (0, .withHeader)
  , (1, .assign "result")
  , (1, .forHeader)
  , (2, .assign "x")
  , (2, .assign "y")
  , (0, .withHeader)
  , (1, .assign "result")
  , (1, .forHeader)
  , (2, .printStmt)
  , (0, .withHeader)
  , (1, .exprStmt) ]

/-- Statements of tutorial.py, part 2 (see tutorialStmts). -/
def tutorialStmts2 : PyScript :=
  [ (1, .exprStmt)
  , (0, .importStmt "Session")
  , (0, .assign "stmt")
  , (0, .withHeader)
  , (1, .assign "result")
  , (1, .forHeader)
  , (2, .printStmt)
  , (0, .withHeader)
  , (1, .assign "result")
  , (1, .exprStmt)
  , (0, .importStmt "MetaData")
  , (0, .assign "metadata_obj")
  , (0, .importStmt "Table Column Integer String")
  , (0, .assign "user_table")
  , (0, .importStmt "ForeignKey")
  , (0, .assign "address_table")
  , (0, .exprStmt)
  , (0, .importStmt "registry")
  , (0, .assign "mapper_registry")
  , (0, .assign "Base")
  , (0, .importStmt "relationship")
  , (0, .classHeader "User")
  , (1, .assign "__tablename__")
  , (1, .assign "id")
  , (1, .assign "name")
  , (1, .assign "fullname")
  , (1, .assign "addresses")
  , (1, .funcDef "__repr__")
  , (2, .returnStmt)
  , (0, .classHeader "Address")
  , (1, .assign "__tablename__")
  , (1, .assign "id")
  , (1, .assign "email_address")
  , (1, .assign "user_id")
  , (1, .assign "user")
  , (1, .funcDef "__repr__")
  , (2, .returnStmt)
  , (0, .assign "sandy")
  , (0, .exprStmt)
  , (0, .exprStmt) ]

/-- Statements of tutorial.py, part 3 (see tutorialStmts). -/
def tutorialStmts3 : PyScript :=
  [ (0, .assign "some_table")
  , (0, .importStmt "insert select")
  , (0, .assign "stmt")
  , (0, .printStmt)
  , (0, .assign "compiled")
  , (0, .withHeader)
  , (1, .assign "result")
  , (1, .exprStmt)
  , (0, .withHeader)
  , (1, .assign "result")
  , (1, .exprStmt)
  , (0, .importStmt "select bindparam")
  , (0, .assign "scalar_subq")
  , (0, .withHeader)
  , (1, .assign "result")
  , (1, .exprStmt)
  , (0, .assign "select_stmt")
  , (0, .assign "insert_stmt")
  , (0, .printStmt)
  , (0, .assign "insert_stmt")
  , (0, .printStmt)
  , (0, .assign "select_stmt")
  , (0, .assign "insert_stmt")
  , (0, .printStmt)
  , (0, .importStmt "select")
  , (0, .assign "stmt")
  , (0, .printStmt)
  , (0, .withHeader)
  , (1, .forHeader)
  , (2, .printStmt)
  , (0, .assign "stmt")
  , (0, .withHeader)
  , (1, .forHeader)
  , (2, .printStmt)
  , (0, .printStmt)
  , (0, .printStmt)
  , (0, .printStmt)
  , (0, .assign "row")
  , (0, .assign "user")
  , (0, .printStmt) ]

/-- Statements of tutorial.py, part 4 (see tutorialStmts). -/
def tutorialStmts4 : PyScript :=
  [ (0, .assign "row")
  , (0, .exprStmt)
  , (0, .importStmt "func cast")
  , (0, .assign "stmt")
  , (0, .withHeader)
  , (1, .forHeader)
  , (2, .printStmt)
  , (0, .importStmt "text")
  , (0, .assign "stmt")
  , (0, .withHeader)
  , (1, .printStmt)
  , (0, .importStmt "literal_column")
  , (0, .assign "stmt")
  , (0, .withHeader)
  , (1, .forHeader)
  , (2, .printStmt)
  , (0, .printStmt)
  , (0, .printStmt)
  , (0, .printStmt)
  , (0, .printStmt)
  , (0, .printStmt)
  , (0, .importStmt "and_ or_")
  , (0, .printStmt)
  , (0, .printStmt)
  , (0, .printStmt)
  , (0, .printStmt)
  , (0, .printStmt)
  , (0, .printStmt)
  , (0, .printStmt)
  , (0, .importStmt "func")
  , (0, .printStmt)
  , (0, .printStmt)
  , (0, .printStmt)
  , (0, .printStmt)
  , (0, .printStmt)
  , (0, .printStmt)
  , (0, .importStmt "func")
  , (0, .assign "count_fn")
  , (0, .printStmt)
  , (0, .withHeader) ]

/-- Statements of tutorial.py, part 5 (see tutorialStmts). -/
def tutorialStmts5 : PyScript :=
  [ (1, .assign "result")
  , (1, .printStmt)
  , (0, .importStmt "func desc")
  , (0, .assign "stmt")
  , (0, .printStmt)
  , (0, .assign "user_alias_1")
  , (0, .assign "user_alias_2")
  , (0, .printStmt)
  , (0, .importStmt "aliased")
  , (0, .assign "address_alias_1")
  , (0, .assign "address_alias_2")
  , (0, .printStmt)
  , (0, .assign "subq")
  , (0, .printStmt)
  , (0, .printStmt)
  , (0, .assign "stmt")
  , (0, .printStmt)
  , (0, .assign "subq")
  , (0, .assign "stmt")
  , (0, .printStmt)
  , (0, .assign "subq")
  , (0, .assign "address_subq")
  , (0, .assign "stmt")
  , (0, .withHeader)
  , (1, .forHeader)
  , (2, .printStmt)
  , (0, .assign "cte_obj")
  , (0, .assign "address_cte")
  , (0, .assign "stmt")
  , (0, .withHeader)
  , (1, .forHeader)
  , (2, .printStmt)
  , (0, .assign "subq")
  , (0, .printStmt)
  , (0, .printStmt)
  , (0, .assign "stmt")
  , (0, .printStmt)
  , (0, .assign "stmt")
  , (0, .tryHeader)
  , (1, .printStmt) ]

/-- Statements of tutorial.py, part 6 (see tutorialStmts). -/
def tutorialStmts6 : PyScript :=
  [ (0, .exceptHeader)
  , (1, .passStmt)
  , (0, .assign "subq")
  , (0, .withHeader)
  , (1, .assign "result")
  , (1, .printStmt)
  , (0, .printStmt)
  , (0, .assign "subq")
  , (0, .assign "stmt")
  , (0, .printStmt)
  , (0, .importStmt "union_all")
  , (0, .assign "stmt1")
  , (0, .assign "stmt2")
  , (0, .assign "u")
  , (0, .withHeader)
  , (1, .assign "result")
  , (1, .printStmt)
  , (0, .assign "u_subq")
  , (0, .assign "stmt")
  , (0, .withHeader)
  , (1, .assign "result")
  , (1, .printStmt)
  , (0, .assign "stmt1")
  , (0, .assign "stmt2")
  , (0, .assign "u")
  , (0, .assign "orm_stmt")
  , (0, .withHeader)
  , (1, .forHeader)
  , (2, .printStmt)
  , (0, .assign "user_alias")
  , (0, .assign "orm_stmt")
  , (0, .withHeader)
  , (1, .forHeader)
  , (2, .printStmt)
  , (0, .assign "subq")
  , (0, .withHeader)
  , (1, .assign "result")
  , (1, .printStmt)
  , (0, .assign "subq")
  , (0, .withHeader) ]

/-- Statements of tutorial.py, part 7 (see tutorialStmts). -/
def tutorialStmts7 : PyScript :=
  [ (1, .assign "result")
  , (1, .printStmt)
  , (0, .printStmt)
  , (0, .printStmt)
  , (0, .assign "stmt")
  , (0, .withHeader)
  , (1, .assign "result")
  , (1, .printStmt)
  , (0, .printStmt)
  , (0, .importStmt "postgresql")
  , (0, .printStmt)
  , (0, .importStmt "oracle")
  , (0, .printStmt)
  , (0, .exprStmt)
  , (0, .importStmt "JSON")
  , (0, .assign "function_expr")
  , (0, .assign "stmt")
  , (0, .printStmt)
  , (0, .assign "m1")
  , (0, .exprStmt)
  , (0, .assign "m2")
  , (0, .exprStmt)
  , (0, .exprStmt)
  , (0, .exprStmt)
  , (0, .exprStmt)
  , (0, .exprStmt)
  , (0, .printStmt)
  , (0, .exprStmt)
  , (0, .exprStmt)
  , (0, .assign "stmt")
  , (0, .withHeader)
  , (1, .assign "result")
  , (1, .printStmt)
  , (0, .assign "stmt")
  , (0, .withHeader)
  , (1, .assign "result")
  , (1, .printStmt)
  , (0, .printStmt)
  , (0, .assign "stmt")
  , (0, .withHeader) ]

/-- Statements of tutorial.py, part 8 (see tutorialStmts). -/
def tutorialStmts8 : PyScript :=
  [ (1, .assign "result")
  , (1, .printStmt)
  , (0, .assign "onetwothree")
  , (0, .assign "stmt")
  , (0, .withHeader)
  , (1, .assign "result")
  , (1, .exprStmt)
  , (0, .importStmt "select func")
  , (0, .assign "stmt")
  , (0, .printStmt)
  , (0, .importStmt "oracle")
  , (0, .assign "stmt")
  , (0, .printStmt)
  , (0, .importStmt "cast")
  , (0, .assign "stmt")
  , (0, .withHeader)
  , (1, .assign "result")
  , (1, .exprStmt)
  , (0, .importStmt "JSON")
  , (0, .printStmt)
  , (0, .importStmt "json")
  , (0, .importStmt "JSON")
  , (0, .importStmt "type_coerce")
  , (0, .importStmt "mysql")
  , (0, .assign "s")
  , (0, .printStmt)
  , (0, .importStmt "update")
  , (0, .assign "stmt")
  , (0, .printStmt)
  , (0, .assign "stmt")
  , (0, .printStmt)
  , (0, .importStmt "bindparam")
  , (0, .assign "stmt")
  , (0, .withHeader)
  , (1, .exprStmt)
  , (0, .assign "scalar_subq")
  , (0, .assign "update_stmt")
  , (0, .printStmt)
  , (0, .assign "update_stmt")
  , (0, .printStmt) ]

/-- Statements of tutorial.py, part 9 (see tutorialStmts). -/
def tutorialStmts9 : PyScript :=
  [ (0, .assign "update_stmt")
  , (0, .importStmt "mysql")
  , (0, .printStmt)
  , (0, .assign "update_stmt")
  , (0, .printStmt)
  , (0, .importStmt "delete")
  , (0, .assign "stmt")
  , (0, .printStmt)
  , (0, .assign "delete_stmt")
  , (0, .importStmt "mysql")
  , (0, .printStmt)
  , (0, .withHeader)
  , (1, .assign "result")
  , (1, .printStmt)
  , (0, .assign "update_stmt")
  , (0, .printStmt)
  , (0, .assign "delete_stmt")
  , (0, .printStmt)
  , (0, .assign "squidward")
  , (0, .assign "krabs")
  , (0, .assign "session")
  , (0, .exprStmt)
  , (0, .exprStmt)
  , (0, .exprStmt)
  , (0, .exprStmt)
  , (0, .exprStmt)
  , (0, .exprStmt)
  , (0, .assign "some_squidward")
  , (0, .exprStmt)
  , (0, .exprStmt) ]

/-- The statements of tutorial.py in file order, at statement
granularity (a multi-line expression or call is one statement),
concatenated from the parts above. -/
def tutorialStmts : PyScript :=
  tutorialStmts1 ++ tutorialStmts2 ++ tutorialStmts3 ++ tutorialStmts4 ++ tutorialStmts5 ++ tutorialStmts6 ++ tutorialStmts7 ++ tutorialStmts8 ++ tutorialStmts9

/-- The function definitions of a script: depth and name of every
funcDef statement. -/
def funcDefsOf (p : PyScript) : List (Nat × String) :=
  p.filterMap (fun s =>
    match s.2 with
    | .funcDef n => some (s.1, n)
    | _ => none)

/-- The function definitions at top level (depth 0) of a script. -/
def topLevelFuncDefsOf (p : PyScript) : List String :=
  p.filterMap (fun s =>
    match s.1, s.2 with
    | 0, .funcDef n => some n
    | _, _ => none)

/-- The class definitions of a script, in order. -/
def classDefsOf (p : PyScript) : List String :=
  p.filterMap (fun s =>
    match s.2 with
    | .classHeader n => some n
    | _ => none)

/-- Whether a statement kind is a concurrency primitive, a background
task, or an async construct. -/
def isConcurrencyPrimitive : PyStmtKind → Bool
  | .threadSpawn => true
  | .asyncConstruct => true
  | _ => false

/-- A script is concurrency-free when none of its statements is a
concurrency primitive. -/
def concurrencyFree (p : PyScript) : Bool :=
  p.all (fun s => !isConcurrencyPrimitive s.2)

/-- Control successors of one statement: a thread or task spawn would
continue in two places at once; every other statement continues at the
single next statement. -/
def successorCount : PyStmtKind → Nat
  | .threadSpawn => 2
  | _ => 1

/-- A script executes as one sequential top-to-bottom trace exactly
when every statement has a single control successor. -/
def sequentialExecution (p : PyScript) : Bool :=
  p.all (fun s => successorCount s.2 == 1)

set_option maxRecDepth 8192 in
/-- C1: the declared data model of both scripts consists of exactly
two entities, a User with columns id, name, fullname and an Address
with columns id, email_address, user_id, where user_id is a foreign
key referencing the id of the user_account table, and the two classes
form a one-to-many relationship pair (addresses collection on User,
user on Address, linked by back_populates, foreign key on the Address
side). -/
theorem c1_two_entity_data_model :
    quickStartModel.map MappedClass.className = ["User", "Address"] ∧
    tutorialModel.map MappedClass.className = ["User", "Address"] ∧
    classDefsOf quickStartStmts = ["User", "Address"] ∧
    classDefsOf tutorialStmts = ["User", "Address"] ∧
    quickStartUser.columns.map ColumnDef.name = ["id", "name", "fullname"] ∧
    tutorialUser.columns.map ColumnDef.name = ["id", "name", "fullname"] ∧
    quickStartAddress.columns.map ColumnDef.name =
      ["id", "email_address", "user_id"] ∧
    tutorialAddress.columns.map ColumnDef.name =
      ["id", "email_address", "user_id"] ∧
    (quickStartAddress.columns.filterMap
        (fun c => c.foreignKey.map (fun f => (c.name, f)))) =
      [("user_id", "user_account.id")] ∧
    (tutorialAddress.columns.filterMap
        (fun c => c.foreignKey.map (fun f => (c.name, f)))) =
      [("user_id", "user_account.id")] ∧
    quickStartUser.columns.all (fun c => c.foreignKey.isNone) = true ∧
    tutorialUser.columns.all (fun c => c.foreignKey.isNone) = true ∧
    oneToMany quickStartUser quickStartAddress = true ∧
    oneToMany tutorialUser tutorialAddress = true := by
  decide

/-- C2 counterexample: the claim that no constraint beyond the primary
keys and the user_id foreign key is declared is false: the
email_address column of the quick_start Address carries nullable=False,
so the Address class of quick_start.py fails the only-pk-fk check, and
so does the model as a whole. -/
theorem c2_counterexample_extra_constraints :
    columnExtraConstraint
        { name := "email_address", ty := .string, notNull := true } = true ∧
    onlyPkFkConstraints quickStartAddress = false ∧
    ((quickStartModel ++ tutorialModel).all onlyPkFkConstraints) = false := by
  decide

/-- C2 amended: beyond the primary keys and the user_id foreign key,
the mapped classes declare exactly these constraints: a length bound
String(30) on the name column of User in both files, NOT NULL on
email_address in both files, NOT NULL on user_id in quick_start.py
only, and the cascade all, delete-orphan on the addresses relationship
in quick_start.py only. -/
theorem c2_amended_declared_constraints :
    (quickStartUser.columns.filter columnExtraConstraint).map ColumnDef.name =
      ["name"] ∧
    (tutorialUser.columns.filter columnExtraConstraint).map ColumnDef.name =
      ["name"] ∧
    (quickStartAddress.columns.filter columnExtraConstraint).map ColumnDef.name =
      ["email_address", "user_id"] ∧
    (tutorialAddress.columns.filter columnExtraConstraint).map ColumnDef.name =
      ["email_address"] ∧
    quickStartUser.columns.any
        (fun c => c.name == "name" && c.ty == ColType.stringN 30) = true ∧
    quickStartUser.relationships.filterMap (fun r => r.cascade) =
      ["all, delete-orphan"] ∧
    tutorialUser.relationships.filterMap (fun r => r.cascade) = [] ∧
    quickStartAddress.relationships.filterMap (fun r => r.cascade) = [] ∧
    tutorialAddress.relationships.filterMap (fun r => r.cascade) = [] := by
  decide

/-- C3: compiling the SELECT that joins user_account to address and
selects the auto-correlated address-count scalar subquery fails,
because both referenced tables are correlated out and the subquery is
left with no FROM clause; the bare except swallows the error and the
script continues; the same statement rebuilt with correlate(user_table)
compiles, since address remains as the subquery FROM; and the simpler
statement of line 499, whose enclosing FROM holds user_account alone,
also compiles, so the failure occurs exactly when the correlation is
left ambiguous. -/
theorem c3_ambiguous_correlation_error :
    compileFails ambiguousStmt = true ∧
    bareExceptContinues (compileStmt ambiguousStmt) = true ∧
    compileFails correlatedStmt = false ∧
    compileFails stmtLine499 = false ∧
    subqueryFroms (countAddressesSubquery .auto) ambiguousStmt.froms = [] ∧
    subqueryFroms (countAddressesSubquery (.explicitTables [user_table]))
        correlatedStmt.froms = [address_table] := by
  decide

/-- C5: in the session traces of both scripts, every entity that is
ever flushed or committed was constructed (or loaded) at an earlier
index and staged at an index no earlier than its construction and
strictly before its first flush or commit. -/
theorem c5_session_lifecycle_order :
    lifecycleOk quickStartTrace = true ∧
    lifecycleOk tutorialOrmTrace = true := by
  decide

/-- C4 counterexample: the mapped classes of the two files are not
equal: the quick_start User carries a cascade on its addresses
relationship that the tutorial User lacks, and the quick_start Address
declares user_id NOT NULL while the tutorial Address does not. -/
theorem c4_counterexample_model_mismatch :
    quickStartUser ≠ tutorialUser ∧ quickStartAddress ≠ tutorialAddress := by
  decide

/-- C4 amended: the mapped classes of the two files agree on class
names, table names, column lists and relationship structure, except
that quick_start.py additionally declares cascade all, delete-orphan
on the addresses relationship of User and nullable=False on the
user_id column of Address. -/
theorem c4_amended_near_duplicates :
    quickStartUser.className = tutorialUser.className ∧
    quickStartUser.tablename = tutorialUser.tablename ∧
    quickStartUser.columns = tutorialUser.columns ∧
    quickStartUser.relationships =
      tutorialUser.relationships.map
        (fun r => { r with cascade := some "all, delete-orphan" }) ∧
    quickStartAddress.className = tutorialAddress.className ∧
    quickStartAddress.tablename = tutorialAddress.tablename ∧
    quickStartAddress.relationships = tutorialAddress.relationships ∧
    quickStartAddress.columns =
      tutorialAddress.columns.map
        (fun c => if c.name == "user_id" then { c with notNull := true } else c) := by
  decide

/-- C6: under the cascade all, delete-orphan declared on the addresses
relationship of the quick_start User, the flush after removing an
address from the collection deletes exactly the rows with that address
id, the flush after deleting a user deletes every address row of that
user, both flushes preserve the foreign key invariant, and every
database state observed after a flush or commit of quick_start.py
satisfies the invariant that each address row references an existing
user row. -/
theorem c6_delete_orphan_cascade (db : DB) (uid aid : Nat)
    (h : fkInvariant db = true) :
    (removeOrphanFlush db aid).addresses.all (fun a => a.id != aid) = true ∧
    (deleteUserFlush db uid).addresses.all (fun a => a.user_id != uid) = true ∧
    fkInvariant (removeOrphanFlush db aid) = true ∧
    fkInvariant (deleteUserFlush db uid) = true ∧
    quickStartUser.relationships.filterMap (fun r => r.cascade) =
      ["all, delete-orphan"] ∧
    quickStartDbStates.all fkInvariant = true := by
  refine ⟨?_, ?_, ?_, ?_, by decide, by decide⟩
  · rw [List.all_eq_true]
    intro a ha
    exact (List.mem_filter.mp ha).2
  · rw [List.all_eq_true]
    intro a ha
    exact (List.mem_filter.mp ha).2
  · simp only [fkInvariant, removeOrphanFlush, List.all_eq_true] at h ⊢
    intro a ha
    exact h a (List.mem_of_mem_filter ha)
  · simp only [fkInvariant, deleteUserFlush, List.all_eq_true] at h ⊢
    intro a ha
    have hmem := List.mem_filter.mp ha
    obtain ⟨u, hu, hue⟩ := List.any_eq_true.mp (h a hmem.1)
    refine List.any_eq_true.mpr ⟨u, List.mem_filter.mpr ⟨hu, ?_⟩, hue⟩
    have h1 : u.id = a.user_id := by simpa using hue
    have h2 : a.user_id ≠ uid := by simpa using hmem.2
    simp [bne_iff_ne, h1]
    exact h2

/-- C6 witness: the cascade theorem applied to the concrete database
state after the second commit of quick_start.py, removing address 2
and deleting user 3 as the script does. -/
theorem c6_delete_orphan_cascade_witness :
    fkInvariant dbAfterSecondCommit = true ∧
    ((removeOrphanFlush dbAfterSecondCommit 2).addresses.all
        (fun a => a.id != 2) = true ∧
      (deleteUserFlush dbAfterSecondCommit 3).addresses.all
        (fun a => a.user_id != 3) = true ∧
      fkInvariant (removeOrphanFlush dbAfterSecondCommit 2) = true ∧
      fkInvariant (deleteUserFlush dbAfterSecondCommit 3) = true ∧
      quickStartUser.relationships.filterMap (fun r => r.cascade) =
        ["all, delete-orphan"] ∧
      quickStartDbStates.all fkInvariant = true) :=
  ⟨by decide, c6_delete_orphan_cascade dbAfterSecondCommit 3 2 (by decide)⟩

/-- C7: after the flush of tutorial.py line 883, squidward holds
primary key 5 and krabs 6 (the executed core inserts already used ids
1 to 4); session.get with the actual key 5 is an identity map hit
returning the identical squidward object, but the call the script
makes, session.get(User, 4), misses the identity map and loads the
core-inserted Squidward T row as a fresh object, so the expression
some_squidward is squidward evaluates to False. -/
theorem c7_identity_map_divergence :
    flushedObjects.map OrmUser.id = [some 5, some 6] ∧
    sessionGet identityMapAfterFlush usersAfterTutorialFlush 2 5 =
      .identityHit squidwardNew.token ∧
    someSquidwardGet =
      .loadedFresh { id := 4, name := "squidward", fullname := "Squidward T" } 2 ∧
    sameObject someSquidwardGet squidwardNew.token = false := by
  decide

/-- C8: the newly constructed squidward and krabs objects hold no
primary key from construction through session.add; the flush assigns
them the distinct database-generated keys 5 and 6; and the subsequent
commit leaves both the rows and the assigned keys unchanged. -/
theorem c8_autogenerated_primary_keys :
    squidwardNew.id = none ∧
    krabsNew.id = none ∧
    sessionNewObjects.all (fun o => o.id.isNone) = true ∧
    flushedObjects.map OrmUser.id = [some 5, some 6] ∧
    (flushedObjects.map OrmUser.id).Nodup ∧
    flushedObjects.all (fun o => o.id.isSome) = true ∧
    tutorialCommitState.2 = flushedObjects ∧
    tutorialCommitState.1 = usersAfterTutorialFlush := by
  decide

set_option maxRecDepth 8192 in
/-- C9: neither script contains a concurrency primitive, background
task or async construct, and every statement of both scripts has a
single control successor, so each run is the one sequential
top-to-bottom trace of the statements in file order. -/
theorem c9_single_threaded_sequential :
    concurrencyFree quickStartStmts = true ∧
    concurrencyFree tutorialStmts = true ∧
    sequentialExecution quickStartStmts = true ∧
    sequentialExecution tutorialStmts = true := by
  decide

set_option maxRecDepth 8192 in
/-- C10 counterexample: the claim that the files contain no function
definitions is false: quick_start.py contains the two __repr__ method
definitions (at depth 1, inside the mapped classes), and tutorial.py
likewise contains function definitions. -/
theorem c10_counterexample_function_defs :
    funcDefsOf quickStartStmts = [(1, "__repr__"), (1, "__repr__")] ∧
    funcDefsOf quickStartStmts ≠ [] ∧
    funcDefsOf tutorialStmts ≠ [] := by
  decide

set_option maxRecDepth 8192 in
/-- C10 amended: the files are linear sequential scripts whose only
function definitions are the __repr__ methods inside the two mapped
data classes (none at top level), whose only class definitions are
User and Address, and whose every statement has a single control
successor. -/
theorem c10_amended_linear_scripts :
    topLevelFuncDefsOf quickStartStmts = [] ∧
    topLevelFuncDefsOf tutorialStmts = [] ∧
    funcDefsOf quickStartStmts = [(1, "__repr__"), (1, "__repr__")] ∧
    funcDefsOf tutorialStmts = [(1, "__repr__"), (1, "__repr__")] ∧
    classDefsOf quickStartStmts = ["User", "Address"] ∧
    classDefsOf tutorialStmts = ["User", "Address"] ∧
    sequentialExecution quickStartStmts = true ∧
    sequentialExecution tutorialStmts = true := by
  decide
